import Mathlib

/-!
Shallow embedding of the model-benchmarking page component
(`model-benchmarking.component.ts` of the `ui-model-browser` app).

Numbers that the source manipulates (scores, accuracies) are exact decimal
fractions; they are embedded as rationals.  The asynchronous parts
(the catalog subscription and the run timer) are embedded as explicit
resumption functions on the component state.
-/

/-- Input mode of the page, source line 8: `'single' | 'dataset'`. -/
inductive InputMode where
  | single
  | dataset
deriving DecidableEq, Repr

/-- One catalog entry available for benchmarking (interface `MLAsset`);
fields are the ones the component constructs or reads. -/
structure MLAsset where
  id : String
  name : String
  version : String := ""
  description : String := ""
  shortDescription : String := ""
  assetType : String := ""
  contentType : String := ""
  byteSize : String := ""
  format : String := ""
  keywords : List String := []
  tasks : List String := []
  subtasks : List String := []
  algorithms : List String := []
  libraries : List String := []
  frameworks : List String := []
  modelType : String := ""
  storageType : String := ""
  fileName : String := ""
  owner : String := ""
  isLocal : Bool := false
  hasContractOffers : Bool := false
  contractOffers : List String := []
  endpointUrl : String := ""
  participantId : String := ""
  assetData : List (String × String) := []
  rawProperties : List (String × String) := []
  originator : String := ""
deriving DecidableEq, Repr

/-- One leaderboard entry (interface `RankingRow`, source lines 10-18).
The optional `top?` field of the source defaults to `false` here. -/
structure RankingRow where
  rank : Nat
  model : String
  score : ℚ
  accuracy : ℚ
  latency : String
  cost : String
  top : Bool := false
deriving DecidableEq, Repr

/-- The fixed known-id lookup table of `buildRankingRow`
(source lines 139-172), keyed by asset id; every entry takes its `model`
field from the live asset's name. -/
def scoreMap (assetName : String) : List (String × RankingRow) :=
  [ ("asset-user1-sentiment-api",
      { rank := 0, model := assetName, score := 0.86, accuracy := 0.92,
        latency := "300ms", cost := "$0.012" }),
    ("asset-user1-fraud-api",
      { rank := 0, model := assetName, score := 0.88, accuracy := 0.94,
        latency := "260ms", cost := "$0.014" }),
    ("asset-user1-segmentation-model",
      { rank := 0, model := assetName, score := 0.82, accuracy := 0.9,
        latency := "420ms", cost := "$0.016" }),
    ("asset-user1-credit-model",
      { rank := 0, model := assetName, score := 0.84, accuracy := 0.91,
        latency := "310ms", cost := "$0.011" }) ]

/-- The four ids that have entries in `scoreMap`. -/
def scoreMapIds : List String :=
  [ "asset-user1-sentiment-api", "asset-user1-fraud-api",
    "asset-user1-segmentation-model", "asset-user1-credit-model" ]

/-- The fixed cyclic fallback score sequence, source line 174. -/
def fallbackScores : List ℚ := [0.87, 0.85, 0.82, 0.79, 0.76]

/-- Fallback score at a 0-based position, source line 175:
`fallbackScores[index % fallbackScores.length]`. -/
def fallbackScore (index : Nat) : ℚ :=
  fallbackScores.get ⟨index % fallbackScores.length, Nat.mod_lt index (by decide)⟩

/-- Raw-row construction, source lines 138-187: known-id lookup first,
otherwise the deterministic fallback derived from the 0-based `index`. -/
def buildRankingRow (asset : MLAsset) (index : Nat) : RankingRow :=
  match (scoreMap asset.name).lookup asset.id with
  | some row => row
  | none =>
      { rank := 0
        model := asset.name
        score := fallbackScore index
        accuracy := min 0.95 (fallbackScore index + 0.06)
        latency := toString (280 + index * 40) ++ "ms"
        cost := "$0.0" ++ toString (12 + index) }

/-- Descending stable sort on score, source line 129:
`.sort((a, b) => b.score - a.score)`.  The JavaScript sort is stable and
orders by the comparator; insertion sort with this relation computes the
unique stable reordering that is non-increasing in `score`. -/
def sortDesc (rows : List RankingRow) : List RankingRow :=
  List.insertionSort (fun a b => b.score ≤ a.score) rows

/-- Rank reassignment pass from a starting 0-based position, source line 130:
each row at 0-based position `i` receives `rank := i + 1` and
`top := (i == 0)`. -/
def assignRanksFrom (i : Nat) : List RankingRow → List RankingRow
  | [] => []
  | r :: rs => { r with rank := i + 1, top := i == 0 } :: assignRanksFrom (i + 1) rs

/-- Rank reassignment of the whole sorted list, source line 130. -/
def assignRanks (rows : List RankingRow) : List RankingRow :=
  assignRanksFrom 0 rows

/-- Raw-row list built from a starting 0-based position; together with
`buildRankingRows` this is the indexed map of source line 128. -/
def buildRowsFrom (i : Nat) : List MLAsset → List RankingRow
  | [] => []
  | a :: as => buildRankingRow a i :: buildRowsFrom (i + 1) as

/-- Raw rows of the selected assets, source line 128:
`.map((asset, index) => this.buildRankingRow(asset, index))`. -/
def buildRankingRows (assets : List MLAsset) : List RankingRow :=
  buildRowsFrom 0 assets

/-- The ranking engine applied to the resolved selected assets,
source lines 127-130: build raw rows, sort by descending score,
reassign dense ranks and the `top` flag. -/
def rankAssets (assets : List MLAsset) : List RankingRow :=
  assignRanks (sortDesc (buildRankingRows assets))

/-- The shared template of descriptive defaults of `buildDemoAssets`,
source lines 190-216 (`baseAsset`); `id` and `name` are overridden by
every demo asset. -/
def baseAsset : MLAsset :=
  { id := ""
    name := ""
    version := "1.0.0"
    description := "Demo benchmark asset"
    shortDescription := "Demo benchmark asset"
    assetType := "MLModel"
    contentType := "application/json"
    byteSize := "0"
    format := "HTTP"
    keywords := ["demo"]
    tasks := ["classification"]
    subtasks := ["tabular"]
    algorithms := ["XGBoost"]
    libraries := ["scikit-learn"]
    frameworks := ["ONNX"]
    modelType := "tabular"
    storageType := "HttpData"
    fileName := "demo"
    owner := "demo"
    isLocal := true
    hasContractOffers := false
    contractOffers := []
    endpointUrl := "http://localhost:8080"
    participantId := "demo"
    assetData := []
    rawProperties := []
    originator := "Local Connector" }

/-- The fixed four-asset demo catalog, source lines 218-223. -/
def buildDemoAssets : List MLAsset :=
  [ { baseAsset with id := "demo-iris", name := "Iris-V2", algorithms := ["Logistic Regression"] },
    { baseAsset with id := "demo-sentinel", name := "Sentinel-Edge", frameworks := ["TensorFlow"] },
    { baseAsset with id := "demo-atlas", name := "Atlas-Lite", libraries := ["PyTorch"] },
    { baseAsset with id := "demo-forge", name := "Forge-XL", algorithms := ["Random Forest"] } ]

/-- The mutable fields of the component class, source lines 30-46. -/
structure ModelBenchmarkingComponent where
  inputMode : InputMode
  sampleInput : String
  selectedFileName : String
  isRunning : Bool
  statusMessage : String
  modelPoolAssets : List MLAsset
  selectedAssetIds : List String
  isLoadingAssets : Bool
  assetsError : String
  rankingRows : List RankingRow
deriving DecidableEq, Repr

/-- The component state right after construction, with the field
initializers of source lines 30-46 (the demo leaderboard rows included). -/
def initialState : ModelBenchmarkingComponent :=
  { inputMode := InputMode.single
    sampleInput := "\x7b\"sepal_length\": 5.1, \"sepal_width\": 3.5, \"petal_length\": 1.4, \"petal_width\": 0.2\x7d"
    selectedFileName := ""
    isRunning := false
    statusMessage := "Demo mode: actions are simulated for preview only."
    modelPoolAssets := []
    selectedAssetIds := []
    isLoadingAssets := false
    assetsError := ""
    rankingRows :=
      [ { rank := 1, model := "Iris-V2", score := 0.87, accuracy := 0.93,
          latency := "280ms", cost := "$0.011", top := true },
        { rank := 2, model := "Sentinel-Edge", score := 0.84, accuracy := 0.91,
          latency := "260ms", cost := "$0.015" },
        { rank := 3, model := "Atlas-Lite", score := 0.78, accuracy := 0.88,
          latency := "410ms", cost := "$0.013" },
        { rank := 4, model := "Forge-XL", score := 0.72, accuracy := 0.84,
          latency := "390ms", cost := "$0.009" } ] }

/-- View-facing selection count, source lines 52-54. -/
def selectedCount (c : ModelBenchmarkingComponent) : Nat :=
  c.selectedAssetIds.length

/-- Synchronous part of `loadModelPool`, source lines 57-58, run before the
subscription resumes. -/
def loadModelPoolStart (c : ModelBenchmarkingComponent) : ModelBenchmarkingComponent :=
  { c with isLoadingAssets := true, assetsError := "" }

/-- Success resumption of the catalog subscription, source lines 61-65. -/
def loadModelPoolNext (c : ModelBenchmarkingComponent) (assets : List MLAsset) :
    ModelBenchmarkingComponent :=
  { c with modelPoolAssets := assets
           selectedAssetIds := (assets.take 3).map (fun asset => asset.id)
           isLoadingAssets := false }

/-- Failure resumption of the catalog subscription, source lines 66-71:
fall back to the demo catalog, select its first three ids and record the
warning message. -/
def loadModelPoolError (c : ModelBenchmarkingComponent) : ModelBenchmarkingComponent :=
  { c with modelPoolAssets := buildDemoAssets
           selectedAssetIds := (buildDemoAssets.take 3).map (fun asset => asset.id)
           isLoadingAssets := false
           assetsError := "Unable to load live assets. Showing demo catalog." }

/-- Input-mode switch, source lines 75-77. -/
def setInputMode (c : ModelBenchmarkingComponent) (mode : InputMode) :
    ModelBenchmarkingComponent :=
  { c with inputMode := mode }

/-- Membership query of the selection, source lines 88-90:
`selectedAssetIds.includes(asset.id)`. -/
def isAssetSelected (c : ModelBenchmarkingComponent) (asset : MLAsset) : Bool :=
  c.selectedAssetIds.contains asset.id

/-- Selection toggle, source lines 79-86: remove the id when present,
otherwise append it to the end. -/
def toggleAssetSelection (c : ModelBenchmarkingComponent) (asset : MLAsset) :
    ModelBenchmarkingComponent :=
  if isAssetSelected c asset then
    { c with selectedAssetIds := c.selectedAssetIds.filter (fun id => id != asset.id) }
  else
    { c with selectedAssetIds := c.selectedAssetIds ++ [asset.id] }

/-- File-input resumption, source lines 100-104; only the display name of
the optional selected file is stored. -/
def handleFileSelection (c : ModelBenchmarkingComponent) (file : Option String) :
    ModelBenchmarkingComponent :=
  { c with selectedFileName := match file with | some nm => nm | none => "" }

/-- Schema-validation action, source lines 106-108: status text only. -/
def validateSchema (c : ModelBenchmarkingComponent) : ModelBenchmarkingComponent :=
  { c with statusMessage := "Schema validated in demo mode. Ready to run ranking." }

/-- Selected assets resolved against the loaded catalog,
source lines 124-126. -/
def selectedAssets (c : ModelBenchmarkingComponent) : List MLAsset :=
  c.modelPoolAssets.filter (fun asset => c.selectedAssetIds.contains asset.id)

/-- Timer resumption of `runRanking`, source lines 123-135: compute the
leaderboard from the currently selected assets and leave the running
state. -/
def runRankingTimeout (c : ModelBenchmarkingComponent) : ModelBenchmarkingComponent :=
  { c with rankingRows := rankAssets (selectedAssets c)
           isRunning := false
           statusMessage := "Demo ranking generated. Replace with live benchmarking when backend is ready." }

/-- Synchronous part of `runRanking`, source lines 110-136.  The returned
flag tells whether the simulated 1200ms timer was scheduled (`true` exactly
when neither guard fired). -/
def runRanking (c : ModelBenchmarkingComponent) : ModelBenchmarkingComponent × Bool :=
  if c.isRunning then
    (c, false)
  else if c.selectedAssetIds.length < 2 then
    ({ c with statusMessage := "Select at least two models to generate a ranking." }, false)
  else
    ({ c with isRunning := true, statusMessage := "Running benchmark in demo mode..." }, true)

/-- Reachable states of one page session.  The session starts at the
constructed state; the catalog subscription may start and resume with
either outcome, the run action and its timer may fire, and the view can
switch input modes, validate, pick a file, or toggle the selection of an
asset it renders.  The view's template renders one toggle control per
member of the loaded catalog, so toggle events always carry an asset of
`modelPoolAssets`. -/
inductive Reachable : ModelBenchmarkingComponent → Prop where
  | init : Reachable initialState
  | loadStart {c} : Reachable c → Reachable (loadModelPoolStart c)
  | loadNext {c} (assets : List MLAsset) : Reachable c → Reachable (loadModelPoolNext c assets)
  | loadError {c} : Reachable c → Reachable (loadModelPoolError c)
  | mode {c} (m : InputMode) : Reachable c → Reachable (setInputMode c m)
  | toggle {c} (asset : MLAsset) : Reachable c → asset ∈ c.modelPoolAssets →
      Reachable (toggleAssetSelection c asset)
  | file {c} (f : Option String) : Reachable c → Reachable (handleFileSelection c f)
  | validate {c} : Reachable c → Reachable (validateSchema c)
  | runStart {c} : Reachable c → Reachable (runRanking c).1
  | runTimer {c} : Reachable c → c.isRunning = true → Reachable (runRankingTimeout c)

/-- Selection invariant: every selected id references an asset of the
currently loaded catalog. -/
def selectionValid (c : ModelBenchmarkingComponent) : Prop :=
  ∀ id ∈ c.selectedAssetIds, id ∈ c.modelPoolAssets.map (fun asset => asset.id)

/-- Live asset carrying the fraud-api id of the lookup table. -/
def fraudApiAsset : MLAsset :=
  { id := "asset-user1-fraud-api", name := "Fraud API" }

/-- Live asset carrying the misspelled id written in the scenario
("sentinent"), which is not a key of the lookup table. -/
def sentinentApiAsset : MLAsset :=
  { id := "asset-user1-sentinent-api", name := "Sentiment API" }

/-- Live asset carrying the sentiment-api id of the lookup table. -/
def sentimentApiAsset : MLAsset :=
  { id := "asset-user1-sentiment-api", name := "Sentiment API" }

/-- Page state about to run the scenario exactly as the claim spells it:
catalog and selection hold the fraud-api id and the misspelled
sentinent-api id. -/
def sentinentScenarioState : ModelBenchmarkingComponent :=
  { initialState with
      modelPoolAssets := [fraudApiAsset, sentinentApiAsset]
      selectedAssetIds := ["asset-user1-fraud-api", "asset-user1-sentinent-api"] }

/-! Helper lemmas about the ranking pipeline. -/

instance : IsTotal RankingRow (fun a b => b.score ≤ a.score) :=
  ⟨fun a b => le_total b.score a.score⟩

instance : IsTrans RankingRow (fun a b => b.score ≤ a.score) :=
  ⟨fun _ _ _ h1 h2 => le_trans h2 h1⟩

lemma length_buildRowsFrom (assets : List MLAsset) :
    ∀ i, (buildRowsFrom i assets).length = assets.length := by
  induction assets with
  | nil => intro i; rfl
  | cons a as ih => intro i; simp [buildRowsFrom, ih]

lemma length_sortDesc (rows : List RankingRow) :
    (sortDesc rows).length = rows.length := by
  unfold sortDesc
  exact (List.perm_insertionSort _ rows).length_eq

lemma length_assignRanksFrom (rows : List RankingRow) :
    ∀ i, (assignRanksFrom i rows).length = rows.length := by
  induction rows with
  | nil => intro i; rfl
  | cons r rs ih => intro i; simp [assignRanksFrom, ih]

lemma map_rank_assignRanksFrom (rows : List RankingRow) :
    ∀ i, (assignRanksFrom i rows).map (fun r => r.rank) =
      List.range' (i + 1) rows.length := by
  induction rows with
  | nil => intro i; rfl
  | cons r rs ih => intro i; simp [assignRanksFrom, ih, List.range'_succ]

lemma map_score_assignRanksFrom (rows : List RankingRow) :
    ∀ i, (assignRanksFrom i rows).map (fun r => r.score) =
      rows.map (fun r => r.score) := by
  induction rows with
  | nil => intro i; rfl
  | cons r rs ih => intro i; simp [assignRanksFrom, ih]

lemma top_false_of_assignRanksFrom (rows : List RankingRow) :
    ∀ i, 0 < i → ∀ r ∈ assignRanksFrom i rows, r.top = false := by
  induction rows with
  | nil => intro i _ r hr; simp [assignRanksFrom] at hr
  | cons x xs ih =>
      intro i hi r hr
      simp only [assignRanksFrom, List.mem_cons] at hr
      rcases hr with h | h
      · subst h
        simp [Nat.ne_of_gt hi, Nat.beq_eq_true_eq]
      · exact ih (i + 1) (Nat.succ_pos i) r h

lemma sorted_sortDesc (rows : List RankingRow) :
    (sortDesc rows).Sorted (fun a b => b.score ≤ a.score) :=
  List.sorted_insertionSort (fun a b => b.score ≤ a.score) rows

lemma filter_orderedInsert_of_not (p : RankingRow → Bool) (x : RankingRow)
    (hx : p x = false) (l : List RankingRow) :
    (List.orderedInsert (fun a b => b.score ≤ a.score) x l).filter p = l.filter p := by
  induction l with
  | nil => simp [List.orderedInsert, hx]
  | cons y ys ih =>
      simp only [List.orderedInsert]
      split
      · simp [List.filter_cons, hx]
      · simp [List.filter_cons, ih]

lemma filter_orderedInsert_of_eq (s : ℚ) (x : RankingRow) (hx : x.score = s)
    (l : List RankingRow) (hl : l.Sorted (fun a b => b.score ≤ a.score)) :
    (List.orderedInsert (fun a b => b.score ≤ a.score) x l).filter
        (fun r => decide (r.score = s)) =
      x :: l.filter (fun r => decide (r.score = s)) := by
  induction l with
  | nil => simp [List.orderedInsert, hx]
  | cons y ys ih =>
      simp only [List.orderedInsert]
      split
      · simp [List.filter_cons, hx]
      · rename_i hyx
        have hylt : x.score < y.score := lt_of_not_le hyx
        have hyne : ¬ y.score = s := by
          rw [← hx]; exact ne_of_gt hylt
        simp only [List.filter_cons, decide_eq_true_eq]
        rw [if_neg hyne, if_neg hyne]
        exact ih (List.Sorted.of_cons hl)

lemma map_id_filter_contains (catalog : List MLAsset) (sel : List String) :
    (catalog.filter (fun asset => sel.contains asset.id)).map (fun asset => asset.id) =
      (catalog.map (fun asset => asset.id)).filter (fun id => sel.contains id) := by
  induction catalog with
  | nil => rfl
  | cons a as ih =>
      by_cases h : sel.contains a.id = true
      · rw [List.filter_cons, if_pos h, List.map_cons, ih, List.map_cons,
          List.filter_cons, if_pos h]
      · rw [List.filter_cons, if_neg h, ih, List.map_cons, List.filter_cons, if_neg h]

lemma length_filter_selected (catalog : List MLAsset) (sel : List String)
    (hc : (catalog.map (fun asset => asset.id)).Nodup) (hs : sel.Nodup)
    (hsub : ∀ id ∈ sel, id ∈ catalog.map (fun asset => asset.id)) :
    (catalog.filter (fun asset => sel.contains asset.id)).length = sel.length := by
  have hlen : (catalog.filter (fun asset => sel.contains asset.id)).length =
      ((catalog.map (fun asset => asset.id)).filter (fun id => sel.contains id)).length := by
    rw [← map_id_filter_contains, List.length_map]
  rw [hlen]
  have h1 : ((catalog.map (fun asset => asset.id)).filter (fun id => sel.contains id)).Nodup :=
    hc.filter _
  have hmem : ∀ x, x ∈ (catalog.map (fun asset => asset.id)).filter
      (fun id => sel.contains id) ↔ x ∈ sel := by
    intro x
    constructor
    · intro hx
      have hpx := List.of_mem_filter hx
      simpa using hpx
    · intro hx
      exact List.mem_filter.mpr ⟨hsub x hx, by simpa using hx⟩
  exact Nat.le_antisymm
    ((h1.subperm fun x hx => (hmem x).1 hx).length_le)
    ((hs.subperm fun x hx => (hmem x).2 hx).length_le)

lemma filter_sortDesc (s : ℚ) (rows : List RankingRow) :
    (sortDesc rows).filter (fun r => decide (r.score = s)) =
      rows.filter (fun r => decide (r.score = s)) := by
  induction rows with
  | nil => rfl
  | cons x xs ih =>
      show (List.orderedInsert (fun a b => b.score ≤ a.score) x (sortDesc xs)).filter
          (fun r => decide (r.score = s)) = _
      by_cases hx : x.score = s
      · rw [filter_orderedInsert_of_eq s x hx (sortDesc xs) (sorted_sortDesc xs), ih]
        simp [List.filter_cons, hx]
      · rw [filter_orderedInsert_of_not _ x (by simp [hx]) (sortDesc xs), ih]
        simp [List.filter_cons, hx]

lemma lookup_scoreMap_of_not_mem (nm id : String) (h : id ∉ scoreMapIds) :
    (scoreMap nm).lookup id = none := by
  simp only [scoreMapIds, List.mem_cons, List.not_mem_nil, or_false, not_or] at h
  obtain ⟨h1, h2, h3, h4⟩ := h
  have e1 : (id == "asset-user1-sentiment-api") = false := beq_eq_false_iff_ne.mpr h1
  have e2 : (id == "asset-user1-fraud-api") = false := beq_eq_false_iff_ne.mpr h2
  have e3 : (id == "asset-user1-segmentation-model") = false := beq_eq_false_iff_ne.mpr h3
  have e4 : (id == "asset-user1-credit-model") = false := beq_eq_false_iff_ne.mpr h4
  simp [scoreMap, List.lookup, e1, e2, e3, e4]

/-- C3: an asset whose id is one of the four table ids gets the table's
quadruple verbatim at every input position, and the row's `model` field is
the live asset's display name. -/
theorem buildRankingRow_known_id (asset : MLAsset) (index : Nat) (row : RankingRow)
    (h : (scoreMap asset.name).lookup asset.id = some row) :
    buildRankingRow asset index = row ∧ row.model = asset.name := by
  refine ⟨by simp [buildRankingRow, h], ?_⟩
  simp only [scoreMap, List.lookup] at h
  repeat' split at h
  all_goals first
    | (cases h; rfl)
    | cases h

/-- Witness for C3: the fraud-api id is in the table and gets its quadruple
verbatim at position 5. -/
theorem buildRankingRow_known_id_witness :
    (scoreMap "Fraud Detection API").lookup "asset-user1-fraud-api" = some
      { rank := 0, model := "Fraud Detection API", score := 0.88, accuracy := 0.94,
        latency := "260ms", cost := "$0.014" } ∧
    buildRankingRow { id := "asset-user1-fraud-api", name := "Fraud Detection API" } 5 =
      { rank := 0, model := "Fraud Detection API", score := 0.88, accuracy := 0.94,
        latency := "260ms", cost := "$0.014" } ∧
    ({ rank := 0, model := "Fraud Detection API", score := 0.88, accuracy := 0.94,
        latency := "260ms", cost := "$0.014" } : RankingRow).model = "Fraud Detection API" :=
  ⟨rfl,
   (buildRankingRow_known_id
      { id := "asset-user1-fraud-api", name := "Fraud Detection API" } 5 _ rfl).1,
   (buildRankingRow_known_id
      { id := "asset-user1-fraud-api", name := "Fraud Detection API" } 5 _ rfl).2⟩

/-- C4: an asset whose id is not in the lookup table gets, at 0-based
position `index`, the fallback row: score from the cyclic sequence at
`index % 5`, accuracy capped at 0.95, latency `(280 + index*40) ++ "ms"`,
and cost `"$0.0" ++ toString (12 + index)`. -/
theorem buildRankingRow_fallback (asset : MLAsset) (index : Nat)
    (h : asset.id ∉ scoreMapIds) :
    buildRankingRow asset index =
      { rank := 0, model := asset.name,
        score := fallbackScore index,
        accuracy := min 0.95 (fallbackScore index + 0.06),
        latency := toString (280 + index * 40) ++ "ms",
        cost := "$0.0" ++ toString (12 + index) } := by
  have hl := lookup_scoreMap_of_not_mem asset.name asset.id h
  simp [buildRankingRow, hl]

/-- Witness for C4 at an unknown id and position 7 (cycling back to the
score at offset 2 of the fallback sequence). -/
theorem buildRankingRow_fallback_witness :
    (({ id := "demo-iris", name := "Iris-V2" } : MLAsset).id ∉ scoreMapIds) ∧
    buildRankingRow { id := "demo-iris", name := "Iris-V2" } 7 =
      { rank := 0, model := "Iris-V2", score := fallbackScore 7,
        accuracy := min 0.95 (fallbackScore 7 + 0.06),
        latency := toString (280 + 7 * 40) ++ "ms",
        cost := "$0.0" ++ toString (12 + 7) } :=
  ⟨by decide, buildRankingRow_fallback { id := "demo-iris", name := "Iris-V2" } 7 (by decide)⟩

/-- C1: with the running flag clear, at least two selected ids, duplicate
free selection and catalog ids, and every selected id present in the
loaded catalog, the run is scheduled and the completed leaderboard has
exactly one row per selected asset, its `rank` fields being exactly the
integers 1..n in list order. -/
theorem runRanking_dense_ranks (c : ModelBenchmarkingComponent)
    (hrun : c.isRunning = false)
    (hn : 2 ≤ c.selectedAssetIds.length)
    (hs : c.selectedAssetIds.Nodup)
    (hc : (c.modelPoolAssets.map (fun asset => asset.id)).Nodup)
    (hsub : ∀ id ∈ c.selectedAssetIds,
      id ∈ c.modelPoolAssets.map (fun asset => asset.id)) :
    (runRanking c).2 = true ∧
    (runRankingTimeout (runRanking c).1).rankingRows.length =
      c.selectedAssetIds.length ∧
    (runRankingTimeout (runRanking c).1).rankingRows.map (fun r => r.rank) =
      List.range' 1 c.selectedAssetIds.length := by
  have h2 : ¬ c.selectedAssetIds.length < 2 := Nat.not_lt.mpr hn
  have hrr : runRanking c =
      ({ c with isRunning := true, statusMessage := "Running benchmark in demo mode..." }, true) := by
    simp [runRanking, hrun, h2]
  have hsa : selectedAssets (runRanking c).1 = selectedAssets c := by
    rw [hrr]; rfl
  have hlen : (selectedAssets c).length = c.selectedAssetIds.length :=
    length_filter_selected c.modelPoolAssets c.selectedAssetIds hc hs hsub
  refine ⟨by rw [hrr], ?_, ?_⟩
  · show (rankAssets (selectedAssets (runRanking c).1)).length = _
    rw [hsa]
    show (assignRanksFrom 0 (sortDesc (buildRowsFrom 0 (selectedAssets c)))).length = _
    rw [length_assignRanksFrom, length_sortDesc, length_buildRowsFrom, hlen]
  · show (rankAssets (selectedAssets (runRanking c).1)).map (fun r => r.rank) = _
    rw [hsa]
    show (assignRanksFrom 0 (sortDesc (buildRowsFrom 0 (selectedAssets c)))).map
        (fun r => r.rank) = _
    rw [map_rank_assignRanksFrom, length_sortDesc, length_buildRowsFrom, hlen]

/-- Witness for C1 on the state reached after a failed catalog load:
three selected ids out of the four demo assets. -/
theorem runRanking_dense_ranks_witness :
    (loadModelPoolError (loadModelPoolStart initialState)).isRunning = false ∧
    2 ≤ (loadModelPoolError (loadModelPoolStart initialState)).selectedAssetIds.length ∧
    (loadModelPoolError (loadModelPoolStart initialState)).selectedAssetIds.Nodup ∧
    ((loadModelPoolError (loadModelPoolStart initialState)).modelPoolAssets.map
      (fun asset => asset.id)).Nodup ∧
    (∀ id ∈ (loadModelPoolError (loadModelPoolStart initialState)).selectedAssetIds,
      id ∈ (loadModelPoolError (loadModelPoolStart initialState)).modelPoolAssets.map
        (fun asset => asset.id)) ∧
    ((runRanking (loadModelPoolError (loadModelPoolStart initialState))).2 = true ∧
      (runRankingTimeout
        (runRanking (loadModelPoolError (loadModelPoolStart initialState))).1).rankingRows.length =
        (loadModelPoolError (loadModelPoolStart initialState)).selectedAssetIds.length ∧
      (runRankingTimeout
        (runRanking (loadModelPoolError (loadModelPoolStart initialState))).1).rankingRows.map
          (fun r => r.rank) =
        List.range' 1 (loadModelPoolError (loadModelPoolStart initialState)).selectedAssetIds.length) := by
  refine ⟨rfl, by decide, by decide, by decide, by decide, ?_⟩
  exact runRanking_dense_ranks _ rfl (by decide) (by decide) (by decide) (by decide)

/-- C2: the leaderboard produced from a nonempty selection is
non-increasing in `score`; its head row is the unique row with
`top = true` and carries `rank = 1`; and rows of equal score keep the
relative order they had among the pre-sort raw rows (stable sort). -/
theorem rankAssets_sorted_top_stable (assets : List MLAsset) (h : assets ≠ []) :
    ((rankAssets assets).map (fun r => r.score)).Sorted (fun a b => b ≤ a) ∧
    (∃ first rest, rankAssets assets = first :: rest ∧ first.top = true ∧
      first.rank = 1 ∧ ∀ r ∈ rest, r.top = false) ∧
    ∀ s : ℚ, (sortDesc (buildRankingRows assets)).filter (fun r => decide (r.score = s)) =
      (buildRankingRows assets).filter (fun r => decide (r.score = s)) := by
  refine ⟨?_, ?_, fun s => filter_sortDesc s (buildRankingRows assets)⟩
  · show ((assignRanksFrom 0 (sortDesc (buildRankingRows assets))).map
      (fun r => r.score)).Sorted (fun a b => b ≤ a)
    rw [map_score_assignRanksFrom]
    exact List.pairwise_map.mpr (sorted_sortDesc (buildRankingRows assets))
  · have hlen2 : (sortDesc (buildRankingRows assets)).length = assets.length := by
      rw [length_sortDesc]; exact length_buildRowsFrom assets 0
    cases hsd : sortDesc (buildRankingRows assets) with
    | nil =>
        exfalso
        rw [hsd] at hlen2
        cases assets with
        | nil => exact h rfl
        | cons a as => simp at hlen2
    | cons first rest =>
        refine ⟨{ first with rank := 1, top := true }, assignRanksFrom 1 rest,
          ?_, rfl, rfl, ?_⟩
        · show assignRanksFrom 0 (sortDesc (buildRankingRows assets)) = _
          rw [hsd]
          rfl
        · exact top_false_of_assignRanksFrom rest 1 Nat.one_pos

/-- Witness for C2 on the four demo assets. -/
theorem rankAssets_sorted_top_stable_witness :
    buildDemoAssets ≠ [] ∧
    (((rankAssets buildDemoAssets).map (fun r => r.score)).Sorted (fun a b => b ≤ a) ∧
      (∃ first rest, rankAssets buildDemoAssets = first :: rest ∧ first.top = true ∧
        first.rank = 1 ∧ ∀ r ∈ rest, r.top = false) ∧
      ∀ s : ℚ, (sortDesc (buildRankingRows buildDemoAssets)).filter
          (fun r => decide (r.score = s)) =
        (buildRankingRows buildDemoAssets).filter (fun r => decide (r.score = s))) := by
  have hne : buildDemoAssets ≠ [] := by simp [buildDemoAssets]
  exact ⟨hne, rankAssets_sorted_top_stable buildDemoAssets hne⟩

/-- C5 counterexample: running the scenario with the ids exactly as the
claim writes them, the second row scores 0.85 (fallback at position 1),
not 0.86, because "asset-user1-sentinent-api" is not a key of the lookup
table.  The resulting order still puts fraud-api first. -/
theorem sentinent_scenario_cex :
    ((runRankingTimeout (runRanking sentinentScenarioState).1).rankingRows.map
      (fun r => (r.model, r.score, r.rank, r.top)) =
      [("Fraud API", (0.88 : ℚ), 1, true), ("Sentiment API", (0.85 : ℚ), 2, false)]) ∧
    ¬ ((runRankingTimeout (runRanking sentinentScenarioState).1).rankingRows.map
      (fun r => r.score) = [0.88, 0.86]) := by
  have hsa : selectedAssets (runRanking sentinentScenarioState).1 =
      [fraudApiAsset, sentinentApiAsset] := rfl
  have hrows : buildRankingRows [fraudApiAsset, sentinentApiAsset] =
      [ { rank := 0, model := "Fraud API", score := 0.88, accuracy := 0.94,
          latency := "260ms", cost := "$0.014" },
        { rank := 0, model := "Sentiment API", score := fallbackScore 1,
          accuracy := min 0.95 (fallbackScore 1 + 0.06),
          latency := toString (280 + 1 * 40) ++ "ms",
          cost := "$0.0" ++ toString (12 + 1) } ] := rfl
  have hscore : fallbackScore 1 = 0.85 := rfl
  constructor
  · show (rankAssets (selectedAssets (runRanking sentinentScenarioState).1)).map
      (fun r => (r.model, r.score, r.rank, r.top)) = _
    rw [hsa]
    unfold rankAssets
    rw [hrows, hscore]
    norm_num [sortDesc, List.insertionSort, List.orderedInsert, assignRanks,
      assignRanksFrom]
  · show ¬ ((rankAssets (selectedAssets (runRanking sentinentScenarioState).1)).map
      (fun r => r.score) = [0.88, 0.86])
    rw [hsa]
    unfold rankAssets
    rw [hrows, hscore]
    norm_num [sortDesc, List.insertionSort, List.orderedInsert, assignRanks,
      assignRanksFrom]

/-- C5 amended: the table's sentiment id is "asset-user1-sentiment-api"
(not "sentinent").  When a run is invoked on a state whose catalog holds
the fraud-api asset and the sentiment-api asset and whose selection holds
exactly their ids, the fraud asset scores 0.88 and the sentiment asset
scores 0.86, and the leaderboard puts fraud first with rank 1 and
`top = true` and sentiment second with rank 2. -/
theorem fraud_sentiment_scenario (c : ModelBenchmarkingComponent) (a b : MLAsset)
    (hcat : c.modelPoolAssets = [a, b])
    (hsel : c.selectedAssetIds = [a.id, b.id])
    (hrun : c.isRunning = false)
    (ha : a.id = "asset-user1-fraud-api")
    (hb : b.id = "asset-user1-sentiment-api") :
    (runRanking c).2 = true ∧
    (runRankingTimeout (runRanking c).1).rankingRows.map
      (fun r => (r.model, r.score, r.rank, r.top)) =
      [(a.name, (0.88 : ℚ), 1, true), (b.name, (0.86 : ℚ), 2, false)] := by
  have h2 : ¬ c.selectedAssetIds.length < 2 := by rw [hsel]; simp
  have hrr : runRanking c =
      ({ c with isRunning := true, statusMessage := "Running benchmark in demo mode..." }, true) := by
    simp [runRanking, hrun, h2]
  have hsa : selectedAssets (runRanking c).1 = [a, b] := by
    rw [hrr]
    show c.modelPoolAssets.filter
      (fun asset => c.selectedAssetIds.contains asset.id) = [a, b]
    rw [hcat, hsel]
    simp
  have hrows : buildRankingRows [a, b] =
      [ { rank := 0, model := a.name, score := 0.88, accuracy := 0.94,
          latency := "260ms", cost := "$0.014" },
        { rank := 0, model := b.name, score := 0.86, accuracy := 0.92,
          latency := "300ms", cost := "$0.012" } ] := by
    simp [buildRankingRows, buildRowsFrom, buildRankingRow, scoreMap, List.lookup, ha, hb]
  refine ⟨by rw [hrr], ?_⟩
  show (rankAssets (selectedAssets (runRanking c).1)).map
    (fun r => (r.model, r.score, r.rank, r.top)) = _
  rw [hsa]
  unfold rankAssets
  rw [hrows]
  norm_num [sortDesc, List.insertionSort, List.orderedInsert, assignRanks, assignRanksFrom]

/-- Witness for the amended C5 on concrete fraud and sentiment assets. -/
theorem fraud_sentiment_scenario_witness :
    ({ initialState with
        modelPoolAssets := [fraudApiAsset, sentimentApiAsset]
        selectedAssetIds := [fraudApiAsset.id, sentimentApiAsset.id] } :
      ModelBenchmarkingComponent).modelPoolAssets = [fraudApiAsset, sentimentApiAsset] ∧
    ({ initialState with
        modelPoolAssets := [fraudApiAsset, sentimentApiAsset]
        selectedAssetIds := [fraudApiAsset.id, sentimentApiAsset.id] } :
      ModelBenchmarkingComponent).selectedAssetIds = [fraudApiAsset.id, sentimentApiAsset.id] ∧
    ({ initialState with
        modelPoolAssets := [fraudApiAsset, sentimentApiAsset]
        selectedAssetIds := [fraudApiAsset.id, sentimentApiAsset.id] } :
      ModelBenchmarkingComponent).isRunning = false ∧
    fraudApiAsset.id = "asset-user1-fraud-api" ∧
    sentimentApiAsset.id = "asset-user1-sentiment-api" ∧
    ((runRanking { initialState with
        modelPoolAssets := [fraudApiAsset, sentimentApiAsset]
        selectedAssetIds := [fraudApiAsset.id, sentimentApiAsset.id] }).2 = true ∧
      (runRankingTimeout (runRanking { initialState with
          modelPoolAssets := [fraudApiAsset, sentimentApiAsset]
          selectedAssetIds := [fraudApiAsset.id, sentimentApiAsset.id] }).1).rankingRows.map
        (fun r => (r.model, r.score, r.rank, r.top)) =
      [(fraudApiAsset.name, (0.88 : ℚ), 1, true), (sentimentApiAsset.name, (0.86 : ℚ), 2, false)]) :=
  ⟨rfl, rfl, rfl, rfl, rfl,
    fraud_sentiment_scenario _ fraudApiAsset sentimentApiAsset rfl rfl rfl rfl rfl⟩

/-- C6: toggling the same asset twice in succession restores the original
membership of the selection set: every id keeps its selected/unselected
status (order-insensitive membership). -/
theorem toggle_twice_membership (c : ModelBenchmarkingComponent) (asset : MLAsset)
    (id : String) :
    (id ∈ (toggleAssetSelection (toggleAssetSelection c asset) asset).selectedAssetIds ↔
      id ∈ c.selectedAssetIds) := by
  by_cases hmem : asset.id ∈ c.selectedAssetIds
  · have h1 : toggleAssetSelection c asset =
        { c with selectedAssetIds :=
            c.selectedAssetIds.filter (fun x => x != asset.id) } := by
      rw [toggleAssetSelection, if_pos (by simp [isAssetSelected, hmem])]
    have h2 : toggleAssetSelection
        { c with selectedAssetIds :=
            c.selectedAssetIds.filter (fun x => x != asset.id) } asset =
        { c with selectedAssetIds :=
            c.selectedAssetIds.filter (fun x => x != asset.id) ++ [asset.id] } := by
      rw [toggleAssetSelection, if_neg (by simp [isAssetSelected])]
    rw [h1, h2]
    show id ∈ c.selectedAssetIds.filter (fun x => x != asset.id) ++ [asset.id] ↔ _
    simp only [List.mem_append, List.mem_filter, List.mem_singleton, bne_iff_ne, ne_eq]
    constructor
    · rintro (⟨h, _⟩ | rfl)
      · exact h
      · exact hmem
    · intro h
      by_cases heq : id = asset.id
      · exact Or.inr heq
      · exact Or.inl ⟨h, by simpa using heq⟩
  · have h1 : toggleAssetSelection c asset =
        { c with selectedAssetIds := c.selectedAssetIds ++ [asset.id] } := by
      rw [toggleAssetSelection, if_neg (by simp [isAssetSelected, hmem])]
    have h2 : toggleAssetSelection
        { c with selectedAssetIds := c.selectedAssetIds ++ [asset.id] } asset =
        { c with selectedAssetIds :=
            (c.selectedAssetIds ++ [asset.id]).filter (fun x => x != asset.id) } := by
      rw [toggleAssetSelection, if_pos (by simp [isAssetSelected])]
    rw [h1, h2]
    show id ∈ (c.selectedAssetIds ++ [asset.id]).filter (fun x => x != asset.id) ↔ _
    rw [List.filter_append]
    have h3 : c.selectedAssetIds.filter (fun x => x != asset.id) = c.selectedAssetIds :=
      List.filter_eq_self.mpr (fun x hx => by
        simp only [bne_iff_ne, ne_eq, decide_eq_true_eq]
        intro heq
        subst heq
        exact hmem hx)
    rw [h3]
    simp

/-- C7: whenever the catalog provider reports failure, the catalog becomes
exactly the fixed four-asset demo sequence (same ids and names in the same
order on every invocation), the selection becomes its first three ids, and
the warning message is set. -/
theorem load_failure_demo_catalog (c : ModelBenchmarkingComponent) :
    (loadModelPoolError (loadModelPoolStart c)).modelPoolAssets = buildDemoAssets ∧
    buildDemoAssets.map (fun asset => (asset.id, asset.name)) =
      [("demo-iris", "Iris-V2"), ("demo-sentinel", "Sentinel-Edge"),
        ("demo-atlas", "Atlas-Lite"), ("demo-forge", "Forge-XL")] ∧
    (loadModelPoolError (loadModelPoolStart c)).selectedAssetIds =
      ["demo-iris", "demo-sentinel", "demo-atlas"] ∧
    (loadModelPoolError (loadModelPoolStart c)).assetsError =
      "Unable to load live assets. Showing demo catalog." ∧
    ∀ c2 : ModelBenchmarkingComponent,
      (loadModelPoolError c2).modelPoolAssets = (loadModelPoolError c).modelPoolAssets :=
  ⟨rfl, rfl, rfl, rfl, fun _ => rfl⟩

/-- C8: with fewer than two selected ids and the running flag clear, the
run action keeps the leaderboard and the running flag unchanged, schedules
nothing, and sets the validation message. -/
theorem runRanking_too_few_selected (c : ModelBenchmarkingComponent)
    (hrun : c.isRunning = false) (hlen : c.selectedAssetIds.length < 2) :
    (runRanking c).1.rankingRows = c.rankingRows ∧
    (runRanking c).1.isRunning = false ∧
    (runRanking c).1.statusMessage =
      "Select at least two models to generate a ranking." ∧
    (runRanking c).2 = false := by
  have hrr : runRanking c =
      ({ c with statusMessage := "Select at least two models to generate a ranking." }, false) := by
    simp [runRanking, hrun, hlen]
  rw [hrr]
  exact ⟨rfl, hrun, rfl, rfl⟩

/-- Witness for C8 at the freshly constructed state (empty selection). -/
theorem runRanking_too_few_selected_witness :
    initialState.isRunning = false ∧
    initialState.selectedAssetIds.length < 2 ∧
    ((runRanking initialState).1.rankingRows = initialState.rankingRows ∧
      (runRanking initialState).1.isRunning = false ∧
      (runRanking initialState).1.statusMessage =
        "Select at least two models to generate a ranking." ∧
      (runRanking initialState).2 = false) :=
  ⟨rfl, by decide, runRanking_too_few_selected initialState rfl (by decide)⟩

/-- C9: invoking the run action while a run is already in flight is a
complete no-op: the state is returned unchanged and no timer is
scheduled. -/
theorem runRanking_reentrant_noop (c : ModelBenchmarkingComponent)
    (h : c.isRunning = true) :
    runRanking c = (c, false) := by
  simp [runRanking, h]

/-- Witness for C9 at a state whose running flag is set. -/
theorem runRanking_reentrant_noop_witness :
    ({ initialState with isRunning := true } : ModelBenchmarkingComponent).isRunning = true ∧
    runRanking { initialState with isRunning := true } =
      ({ initialState with isRunning := true }, false) :=
  ⟨rfl, runRanking_reentrant_noop { initialState with isRunning := true } rfl⟩

/-- C10: in every reachable state of the page session, every id of the
selection set references an asset of the currently loaded catalog. -/
theorem reachable_selection_valid (c : ModelBenchmarkingComponent)
    (h : Reachable c) : selectionValid c := by
  induction h with
  | init => intro id hid; simp [initialState] at hid
  | loadStart hR ih => exact ih
  | loadNext assets hR ih =>
      intro id hid
      obtain ⟨a, ha, rfl⟩ := List.mem_map.mp hid
      exact List.mem_map_of_mem _ (List.take_subset 3 assets ha)
  | loadError hR ih =>
      intro id hid
      obtain ⟨a, ha, rfl⟩ := List.mem_map.mp hid
      exact List.mem_map_of_mem _ (List.take_subset 3 buildDemoAssets ha)
  | mode m hR ih => exact ih
  | toggle asset hR hmem ih =>
      unfold selectionValid toggleAssetSelection
      split
      · intro id hid
        exact ih id (List.mem_of_mem_filter hid)
      · intro id hid
        rcases List.mem_append.mp hid with h1 | h1
        · exact ih id h1
        · rw [List.mem_singleton] at h1
          subst h1
          exact List.mem_map_of_mem _ hmem
  | file f hR ih => exact ih
  | validate hR ih => exact ih
  | runStart hR ih =>
      unfold runRanking
      split
      · exact ih
      · split
        · exact ih
        · exact ih
  | runTimer hR hrun ih => exact ih

/-- Witness for C10 at the reachable state following a failed catalog
load. -/
theorem reachable_selection_valid_witness :
    Reachable (loadModelPoolError (loadModelPoolStart initialState)) ∧
    selectionValid (loadModelPoolError (loadModelPoolStart initialState)) :=
  ⟨Reachable.loadError (Reachable.loadStart Reachable.init),
    reachable_selection_valid _ (Reachable.loadError (Reachable.loadStart Reachable.init))⟩
